import Mathlib

/-!
Shallow embedding of `software/utilities/force_analysis/free_body.py`.

The source defines two classes:
* `Haptick` — builds a 6x6 Plücker-style matrix from five scalar geometry
  parameters, inverts it, and exposes `truss_force_magnitudes` (wrench →
  strut forces), `truss_force_components` and `applied` (strut forces →
  wrench);
* `Calibrated` — ignores its constructor arguments, holds a hardcoded 6x6
  inverse matrix and exposes `applied`.

Python floats are modelled by `ℝ`.  Python exceptions are modelled by an
explicit error type: a Python float division by zero raises
`ZeroDivisionError`, `np.linalg.inv` of a singular matrix raises
`numpy.linalg.LinAlgError`, and a `matmul` shape mismatch raises
`ValueError`.  The spec's error names `ValidationError` and
`NonInvertibleGeometryError` are included as values so that claims about
them can be stated; the source never raises them.
-/

namespace FreeBody

open Matrix Real

/-- Errors observable from the embedded code, together with the two error
names used by the specification. -/
inductive PyErr where
  | zeroDivisionError
  | linAlgError
  | valueError
  | validationError
  | nonInvertibleGeometryError
  deriving DecidableEq

/-- Embeds `np.linspace(0, 2*pi, 3, endpoint=False)`: the three base angles. -/
noncomputable def TRIANGLE : Fin 3 → ℝ
  | 0 => 0
  | 1 => 2 * π / 3
  | 2 => 2 * (2 * π / 3)

/-- Embeds `np.deg2rad`. -/
noncomputable def deg2rad (x : ℝ) : ℝ := x * π / 180

/-- Embeds `top_angles`: `top_angles[::2] = TRIANGLE - 0.5*top_separation/top_radius`,
`top_angles[1::2] = TRIANGLE + 0.5*top_separation/top_radius`. -/
noncomputable def top_angles (top_radius top_separation : ℝ) : Fin 6 → ℝ
  | 0 => TRIANGLE 0 - 0.5 * top_separation / top_radius
  | 1 => TRIANGLE 0 + 0.5 * top_separation / top_radius
  | 2 => TRIANGLE 1 - 0.5 * top_separation / top_radius
  | 3 => TRIANGLE 1 + 0.5 * top_separation / top_radius
  | 4 => TRIANGLE 2 - 0.5 * top_separation / top_radius
  | 5 => TRIANGLE 2 + 0.5 * top_separation / top_radius

/-- Embeds `bottom_angles`: as `top_angles` but shifted by `-deg2rad(60.0)` and using
the bottom separation and radius. -/
noncomputable def bottom_angles (bottom_radius bottom_separation : ℝ) : Fin 6 → ℝ
  | 0 => TRIANGLE 0 - deg2rad 60 - 0.5 * bottom_separation / bottom_radius
  | 1 => TRIANGLE 0 - deg2rad 60 + 0.5 * bottom_separation / bottom_radius
  | 2 => TRIANGLE 1 - deg2rad 60 - 0.5 * bottom_separation / bottom_radius
  | 3 => TRIANGLE 1 - deg2rad 60 + 0.5 * bottom_separation / bottom_radius
  | 4 => TRIANGLE 2 - deg2rad 60 - 0.5 * bottom_separation / bottom_radius
  | 5 => TRIANGLE 2 - deg2rad 60 + 0.5 * bottom_separation / bottom_radius

/-- Embeds `Haptick._joint_positions(angles, radius, z)`:
rows `radius*cos(angles)`, `radius*sin(angles)`, `ones*z`. -/
noncomputable def joint_positions (angles : Fin 6 → ℝ) (radius z : ℝ) :
    Matrix (Fin 3) (Fin 6) ℝ :=
  Matrix.of fun i j =>
    match i with
    | 0 => radius * Real.cos (angles j)
    | 1 => radius * Real.sin (angles j)
    | 2 => 1 * z

/-- Embeds `top_joints = _joint_positions(top_angles, top_radius, height)`. -/
noncomputable def top_joints (top_radius top_separation height : ℝ) :
    Matrix (Fin 3) (Fin 6) ℝ :=
  joint_positions (top_angles top_radius top_separation) top_radius height

/-- Embeds `bottom_joints = _joint_positions(bottom_angles, bottom_radius, 0.0)`. -/
noncomputable def bottom_joints (bottom_radius bottom_separation : ℝ) :
    Matrix (Fin 3) (Fin 6) ℝ :=
  joint_positions (bottom_angles bottom_radius bottom_separation) bottom_radius 0

/-- Embeds `np.roll(bottom_joints, -1, axis=1)`: column `j` becomes column `j+1 mod 6`
of `bottom_joints`; this is `trusses[..., 1]`. -/
noncomputable def bottom_rolled (bottom_radius bottom_separation : ℝ) :
    Matrix (Fin 3) (Fin 6) ℝ :=
  Matrix.of fun i j => bottom_joints bottom_radius bottom_separation i (j + 1)

/-- Embeds `trusses[..., 0] - trusses[..., 1]`: the unnormalized strut vectors. -/
noncomputable def truss_diff (top_radius top_separation bottom_radius
    bottom_separation height : ℝ) : Matrix (Fin 3) (Fin 6) ℝ :=
  top_joints top_radius top_separation height -
    bottom_rolled bottom_radius bottom_separation

/-- Embeds `np.linalg.norm(unnormalized, axis=0)`: per-column Euclidean norm. -/
noncomputable def colNorm (top_radius top_separation bottom_radius
    bottom_separation height : ℝ) (i : Fin 6) : ℝ :=
  Real.sqrt (∑ j : Fin 3,
    (truss_diff top_radius top_separation bottom_radius bottom_separation height j i) ^ 2)

/-- Embeds `self._unit_forces`: the strut difference vectors divided column-wise by
their Euclidean norms. -/
noncomputable def unit_forces (top_radius top_separation bottom_radius
    bottom_separation height : ℝ) : Matrix (Fin 3) (Fin 6) ℝ :=
  Matrix.of fun i j =>
    truss_diff top_radius top_separation bottom_radius bottom_separation height i j /
      colNorm top_radius top_separation bottom_radius bottom_separation height j

/-- Embeds `np.cross(trusses[..., 0], unit_forces, axis=0)`: per-column cross product
of the top joint position with the unit force. -/
noncomputable def moments (top_radius top_separation bottom_radius
    bottom_separation height : ℝ) : Matrix (Fin 3) (Fin 6) ℝ :=
  Matrix.of fun i j =>
    match i with
    | 0 => top_joints top_radius top_separation height 1 j *
             unit_forces top_radius top_separation bottom_radius bottom_separation height 2 j -
           top_joints top_radius top_separation height 2 j *
             unit_forces top_radius top_separation bottom_radius bottom_separation height 1 j
    | 1 => top_joints top_radius top_separation height 2 j *
             unit_forces top_radius top_separation bottom_radius bottom_separation height 0 j -
           top_joints top_radius top_separation height 0 j *
             unit_forces top_radius top_separation bottom_radius bottom_separation height 2 j
    | 2 => top_joints top_radius top_separation height 0 j *
             unit_forces top_radius top_separation bottom_radius bottom_separation height 1 j -
           top_joints top_radius top_separation height 1 j *
             unit_forces top_radius top_separation bottom_radius bottom_separation height 0 j

/-- Embeds `self._plucker = np.vstack((unit_forces, moments))`. -/
noncomputable def plucker (top_radius top_separation bottom_radius
    bottom_separation height : ℝ) : Matrix (Fin 6) (Fin 6) ℝ :=
  Matrix.of fun r c =>
    match r with
    | 0 => unit_forces top_radius top_separation bottom_radius bottom_separation height 0 c
    | 1 => unit_forces top_radius top_separation bottom_radius bottom_separation height 1 c
    | 2 => unit_forces top_radius top_separation bottom_radius bottom_separation height 2 c
    | 3 => moments top_radius top_separation bottom_radius bottom_separation height 0 c
    | 4 => moments top_radius top_separation bottom_radius bottom_separation height 1 c
    | 5 => moments top_radius top_separation bottom_radius bottom_separation height 2 c

/-- The cached state of a constructed `Haptick` object. -/
structure HapState where
  plucker : Matrix (Fin 6) (Fin 6) ℝ
  inverse_plucker : Matrix (Fin 6) (Fin 6) ℝ
  unit_forces : Matrix (Fin 3) (Fin 6) ℝ

/-- The state a successful `Haptick.__init__` caches:
the Plücker matrix, its inverse (`np.linalg.inv`), and the unit forces. -/
noncomputable def hapState (top_radius top_separation bottom_radius
    bottom_separation height : ℝ) : HapState :=
  { plucker := plucker top_radius top_separation bottom_radius bottom_separation height
    inverse_plucker :=
      (plucker top_radius top_separation bottom_radius bottom_separation height)⁻¹
    unit_forces :=
      unit_forces top_radius top_separation bottom_radius bottom_separation height }

open scoped Classical in
/-- Embeds `Haptick.__init__`: stores the five parameters and runs `_init_trusses`.
A zero radius makes the Python float division `0.5 * separation / radius`
raise `ZeroDivisionError`; a singular Plücker matrix makes `np.linalg.inv`
raise `LinAlgError`.  No other failure is possible; there is no input
validation. -/
noncomputable def Haptick.mk (top_radius top_separation bottom_radius
    bottom_separation height : ℝ) : Except PyErr HapState :=
  if top_radius = 0 ∨ bottom_radius = 0 then .error .zeroDivisionError
  else if (plucker top_radius top_separation bottom_radius bottom_separation height).det = 0
    then .error .linAlgError
  else .ok (hapState top_radius top_separation bottom_radius bottom_separation height)

/-- The hardcoded calibration table of `Calibrated.__init__`
(`self._inverse_plucker`), with the source's decimal literals as exact
rationals. -/
noncomputable def Qc : Matrix (Fin 6) (Fin 6) ℝ :=
  !![(1.48862401e-05 : ℝ), (2.76502996e-06 : ℝ), (5.53373707e-06 : ℝ), (3.98716180e-04 : ℝ), (2.59766013e-04 : ℝ), (-3.61150780e-04 : ℝ);
     (6.43781132e-06 : ℝ), (-1.25650148e-05 : ℝ), (5.20549767e-06 : ℝ), (-1.75681170e-05 : ℝ), (4.64222079e-04 : ℝ), (3.13188320e-04 : ℝ);
     (-7.65757954e-06 : ℝ), (9.39886367e-06 : ℝ), (4.09631079e-06 : ℝ), (-2.88297511e-04 : ℝ), (1.68500587e-04 : ℝ), (-2.76560089e-04 : ℝ);
     (7.51952982e-06 : ℝ), (1.00158107e-05 : ℝ), (5.66408608e-06 : ℝ), (-3.81647492e-04 : ℝ), (-2.27210674e-04 : ℝ), (2.84961738e-04 : ℝ);
     (-4.40060451e-06 : ℝ), (-1.11953744e-05 : ℝ), (3.65874605e-06 : ℝ), (1.44982980e-05 : ℝ), (-3.51931260e-04 : ℝ), (-2.82225406e-04 : ℝ);
     (-9.03131292e-06 : ℝ), (6.38641612e-07 : ℝ), (2.86527532e-06 : ℝ), (2.67442245e-04 : ℝ), (-1.53313519e-04 : ℝ), (2.09360902e-04 : ℝ)]

/-- The exact matrix inverse of the calibration table `Qc`,
computed externally and verified below by `Qc_mul_Rc`. -/
noncomputable def Rc : Matrix (Fin 6) (Fin 6) ℝ :=
  !![((2875444809687873957262267323112664231141957875000000000000 : ℝ) / 139215728346974885009292022151865794058671965328826181), ((-258706862526231702523700939900034272212814525000000000000 : ℝ) / 139215728346974885009292022151865794058671965328826181), ((-4287294978727313900866243632708945810259877125000000000000 : ℝ) / 139215728346974885009292022151865794058671965328826181), ((2995443382240194684701227707470061695998178912500000000000 : ℝ) / 139215728346974885009292022151865794058671965328826181), ((-183687711598452005961502760948453532577228575000000000000 : ℝ) / 139215728346974885009292022151865794058671965328826181), ((-4640931804163408587474641017884650472763475000000000000000 : ℝ) / 139215728346974885009292022151865794058671965328826181);
     ((5141270551095576333858387262677171187720837812500000000000 : ℝ) / 417647185040924655027876066455597382176015895986478543), ((-3511020536537986092873513168002153757537678312500000000000 : ℝ) / 139215728346974885009292022151865794058671965328826181), ((6222785976192440227543581314549396805404995812500000000000 : ℝ) / 417647185040924655027876066455597382176015895986478543), ((1830162777663914113215513698943826209684378406250000000000 : ℝ) / 139215728346974885009292022151865794058671965328826181), ((-13682433860675655462059675289517695798590466312500000000000 : ℝ) / 417647185040924655027876066455597382176015895986478543), ((6928086476523863591114135735277051055914152750000000000000 : ℝ) / 417647185040924655027876066455597382176015895986478543);
     ((4079938295234032417185839708836680302366937900000000000000 : ℝ) / 139215728346974885009292022151865794058671965328826181), ((4730062100659853657886458135943072680588031200000000000000 : ℝ) / 139215728346974885009292022151865794058671965328826181), ((5431101016249758358824858406284600561856075300000000000000 : ℝ) / 139215728346974885009292022151865794058671965328826181), ((5212953094490790023781652729113662149673942650000000000000 : ℝ) / 139215728346974885009292022151865794058671965328826181), ((5334793502939038809518466143913054704135248500000000000000 : ℝ) / 139215728346974885009292022151865794058671965328826181), ((7232585211497096628356894906155441826069497500000000000000 : ℝ) / 139215728346974885009292022151865794058671965328826181);
     ((106834495923814001008719427100058531992402168500000000000 : ℝ) / 139215728346974885009292022151865794058671965328826181), ((-41447181559570487533316578255078308676499973500000000000 : ℝ) / 139215728346974885009292022151865794058671965328826181), ((-78338026057404027151459232734696181428195738500000000000 : ℝ) / 139215728346974885009292022151865794058671965328826181), ((-69857623008711332367659045670290819481824415750000000000 : ℝ) / 139215728346974885009292022151865794058671965328826181), ((-45271342992643213908647983551887668814531139500000000000 : ℝ) / 139215728346974885009292022151865794058671965328826181), ((176866785497018518991024130006046315186461330000000000000 : ℝ) / 139215728346974885009292022151865794058671965328826181);
     ((28891233940861198909301500567454959638342065500000000000 : ℝ) / 417647185040924655027876066455597382176015895986478543), ((108493902992740904014286147979479181827503704500000000000 : ℝ) / 139215728346974885009292022151865794058671965328826181), ((328120233189965615003251668708785518122034316500000000000 : ℝ) / 417647185040924655027876066455597382176015895986478543), ((-99451121882793022553931168744790904780279474750000000000 : ℝ) / 139215728346974885009292022151865794058671965328826181), ((-353870045143705546013190308564124639767254232500000000000 : ℝ) / 417647185040924655027876066455597382176015895986478543), ((-74559482971683880043553898800078099143692055000000000000 : ℝ) / 417647185040924655027876066455597382176015895986478543);
     ((-199337595520133761802658947351561373543516546625000000000 : ℝ) / 417647185040924655027876066455597382176015895986478543), ((67210258432979724142776032756082254861099986625000000000 : ℝ) / 139215728346974885009292022151865794058671965328826181), ((-256307056295954506145484423022300556924544339625000000000 : ℝ) / 417647185040924655027876066455597382176015895986478543), ((68700031824027534626682976047113893510241852687500000000 : ℝ) / 139215728346974885009292022151865794058671965328826181), ((-286711897875125898946721881003288534075586564375000000000 : ℝ) / 417647185040924655027876066455597382176015895986478543), ((343786862688745303941082197561334659082234932500000000000 : ℝ) / 417647185040924655027876066455597382176015895986478543)]

/-- The cached state of a constructed `Calibrated` object. -/
structure CalState where
  inverse_plucker : Matrix (Fin 6) (Fin 6) ℝ
  plucker : Matrix (Fin 6) (Fin 6) ℝ

/-- The state `Calibrated.__init__` caches: the hardcoded table and its
`np.linalg.inv` inverse. -/
noncomputable def calState : CalState := { inverse_plucker := Qc, plucker := Qc⁻¹ }

open scoped Classical in
/-- Embeds `Calibrated.__init__(self, *args, **kwargs)`: every argument is ignored;
the hardcoded table is stored and inverted with `np.linalg.inv` (which would
raise `LinAlgError` if the table were singular). -/
noncomputable def Calibrated.init {α : Sort*} (_ : α) : Except PyErr CalState :=
  if Qc.det = 0 then .error .linAlgError else .ok calState

/-- Embeds `np.hstack((applied_force, applied_torque))` for a batch of `N` rows. -/
noncomputable def hstackW {N : ℕ} (F T : Matrix (Fin N) (Fin 3) ℝ) :
    Matrix (Fin N) (Fin 6) ℝ :=
  Matrix.of fun n => Fin.append (F n) (T n)

/-- Embeds `np.atleast_2d` on a 1-D array of length `k`: a single row. -/
noncomputable def rowOf {k : ℕ} (v : Fin k → ℝ) : Matrix (Fin 1) (Fin k) ℝ :=
  Matrix.of fun _ j => v j

/-- Embeds `truss_force_magnitudes(applied_force, applied_torque)` on a batch:
`inverse_plucker @ -np.atleast_2d(np.hstack((force, torque))).T`. -/
noncomputable def truss_force_magnitudes (inverse_plucker : Matrix (Fin 6) (Fin 6) ℝ)
    {N : ℕ} (F T : Matrix (Fin N) (Fin 3) ℝ) : Matrix (Fin 6) (Fin N) ℝ :=
  inverse_plucker * (-(hstackW F T))ᵀ

/-- Embeds `truss_force_magnitudes` on a single wrench: `np.atleast_2d` promotes the
stacked 6-vector to one row and the result is the single output column. -/
noncomputable def truss_force_magnitudes1 (inverse_plucker : Matrix (Fin 6) (Fin 6) ℝ)
    (f t : Fin 3 → ℝ) : Fin 6 → ℝ :=
  fun i => truss_force_magnitudes inverse_plucker (rowOf f) (rowOf t) i 0

/-- Embeds `applied(truss_force_magnitudes)` on a batch of `N` 6-vectors:
`forces_torques = -(plucker @ np.atleast_2d(x).T)` split into rows
`[:3]` and `[3:]`. -/
noncomputable def applied (plucker : Matrix (Fin 6) (Fin 6) ℝ) {N : ℕ}
    (X : Matrix (Fin N) (Fin 6) ℝ) :
    Matrix (Fin 3) (Fin N) ℝ × Matrix (Fin 3) (Fin N) ℝ :=
  (Matrix.of fun i j => (-(plucker * Xᵀ)) (Fin.castAdd 3 i) j,
   Matrix.of fun i j => (-(plucker * Xᵀ)) (Fin.natAdd 3 i) j)

/-- Embeds `applied` on a single 6-vector: the single output column. -/
noncomputable def applied1 (plucker : Matrix (Fin 6) (Fin 6) ℝ) (v : Fin 6 → ℝ) :
    (Fin 3 → ℝ) × (Fin 3 → ℝ) :=
  (fun i => (applied plucker (rowOf v)).1 i 0,
   fun i => (applied plucker (rowOf v)).2 i 0)

/-- Embeds `applied` called on a 1-D vector of arbitrary length `k`: numpy's matmul
raises `ValueError` when the core dimensions mismatch, i.e. whenever
`k ≠ 6`. -/
noncomputable def appliedChecked (plucker : Matrix (Fin 6) (Fin 6) ℝ) (k : ℕ)
    (v : Fin k → ℝ) : Except PyErr ((Fin 3 → ℝ) × (Fin 3 → ℝ)) :=
  if hk : k = 6 then .ok (applied1 plucker fun i => v (Fin.cast hk.symm i))
  else .error .valueError

/-- Embeds `truss_force_components(applied_force, applied_torque)` on a single
wrench: `unit_forces[..., None] * magnitudes[None, ...]`, i.e.
`components[j][i] = unit_forces[j][i] * magnitudes[i]`. -/
noncomputable def truss_force_components1 (st : HapState) (f t : Fin 3 → ℝ) :
    Matrix (Fin 3) (Fin 6) ℝ :=
  Matrix.of fun j i =>
    st.unit_forces j i * truss_force_magnitudes1 st.inverse_plucker f t i

/-- The unit direction as the specification's §3 words describe it
("the normalized vector from its top joint to its bottom joint", i.e.
bottom-joint position minus top-joint position, divided by its Euclidean
norm) — to be compared with the source's `unit_forces`. -/
noncomputable def spec_unit_forces (top_radius top_separation bottom_radius
    bottom_separation height : ℝ) : Matrix (Fin 3) (Fin 6) ℝ :=
  Matrix.of fun i j =>
    (bottom_rolled bottom_radius bottom_separation i j -
        top_joints top_radius top_separation height i j) /
      Real.sqrt (∑ i' : Fin 3,
        (bottom_rolled bottom_radius bottom_separation i' j -
          top_joints top_radius top_separation height i' j) ^ 2)


/-- Modelled from the spec: the source's `Calibrated` class has no
`truss_force_magnitudes` method (the spec's `inverse` operation is missing
from it); §4.3's WrenchMapper contract prescribes
`strutForces = -inverseMatrix · [force; torque]`, the same formula as
`Haptick.truss_force_magnitudes`, applied to the cached inverse matrix. -/
noncomputable def Calibrated.truss_force_magnitudes1 (st : CalState)
    (f t : Fin 3 → ℝ) : Fin 6 → ℝ :=
  FreeBody.truss_force_magnitudes1 st.inverse_plucker f t

/-- The Plücker matrix before column normalization: columns are the raw strut
difference vectors stacked over `cross(top_joint, difference)`; the source's
`plucker` is this matrix with each column divided by its norm
(`plucker_factor` below). -/
noncomputable def pluckerUnnorm (top_radius top_separation bottom_radius
    bottom_separation height : ℝ) : Matrix (Fin 6) (Fin 6) ℝ :=
  Matrix.of fun r c =>
    match r with
    | 0 => truss_diff top_radius top_separation bottom_radius bottom_separation height 0 c
    | 1 => truss_diff top_radius top_separation bottom_radius bottom_separation height 1 c
    | 2 => truss_diff top_radius top_separation bottom_radius bottom_separation height 2 c
    | 3 => top_joints top_radius top_separation height 1 c *
             truss_diff top_radius top_separation bottom_radius bottom_separation height 2 c -
           top_joints top_radius top_separation height 2 c *
             truss_diff top_radius top_separation bottom_radius bottom_separation height 1 c
    | 4 => top_joints top_radius top_separation height 2 c *
             truss_diff top_radius top_separation bottom_radius bottom_separation height 0 c -
           top_joints top_radius top_separation height 0 c *
             truss_diff top_radius top_separation bottom_radius bottom_separation height 2 c
    | 5 => top_joints top_radius top_separation height 0 c *
             truss_diff top_radius top_separation bottom_radius bottom_separation height 1 c -
           top_joints top_radius top_separation height 1 c *
             truss_diff top_radius top_separation bottom_radius bottom_separation height 0 c

/-- Exact value of `pluckerUnnorm` at the reference geometry
`(1, 0, 1, 0, 1)`, established in `pluckerUnnorm_ref`. -/
noncomputable def Mex : Matrix (Fin 6) (Fin 6) ℝ :=
  !![1/2, 1/2, -1, 1/2, 1/2, -1;
     Real.sqrt 3/2, -(Real.sqrt 3/2), 0, Real.sqrt 3/2, -(Real.sqrt 3/2), 0;
     1, 1, 1, 1, 1, 1;
     -(Real.sqrt 3/2), Real.sqrt 3/2, Real.sqrt 3/2, 0, 0, -(Real.sqrt 3/2);
     -(1/2), -(1/2), -(1/2), 1, 1, -(1/2);
     Real.sqrt 3/2, -(Real.sqrt 3/2), Real.sqrt 3/2, -(Real.sqrt 3/2), Real.sqrt 3/2,
       -(Real.sqrt 3/2)]

/-- Exact right inverse of `Mex`, computed externally and verified in
`Mex_mul_Rex`. -/
noncomputable def Rex : Matrix (Fin 6) (Fin 6) ℝ :=
  !![1/3, Real.sqrt 3/9, 1/6, -(Real.sqrt 3/9), -(1/3), Real.sqrt 3/9;
     1/3, -(Real.sqrt 3/9), 1/6, Real.sqrt 3/9, -(1/3), -(Real.sqrt 3/9);
     -(1/3), Real.sqrt 3/9, 1/6, 2*Real.sqrt 3/9, 0, Real.sqrt 3/9;
     0, 2*Real.sqrt 3/9, 1/6, Real.sqrt 3/9, 1/3, -(Real.sqrt 3/9);
     0, -(2*Real.sqrt 3/9), 1/6, -(Real.sqrt 3/9), 1/3, Real.sqrt 3/9;
     -(1/3), -(Real.sqrt 3/9), 1/6, -(2*Real.sqrt 3/9), 0, -(Real.sqrt 3/9)]

/-! ## Helper lemmas -/

@[simp] lemma cons_val_five {α : Type*} {m : ℕ} (x : α)
    (u : Fin (m + 1 + 1 + 1 + 1 + 1) → α) :
    Matrix.vecCons x u 5 = Matrix.vecHead (Matrix.vecTail (Matrix.vecTail
      (Matrix.vecTail (Matrix.vecTail u)))) :=
  rfl

lemma truss_force_magnitudes_col (M : Matrix (Fin 6) (Fin 6) ℝ) {N : ℕ}
    (F T : Matrix (Fin N) (Fin 3) ℝ) (j : Fin N) (i : Fin 6) :
    truss_force_magnitudes M F T i j = -(M.mulVec (Fin.append (F j) (T j))) i := by
  simp [truss_force_magnitudes, hstackW, Matrix.mul_apply, Matrix.mulVec, dotProduct,
    Finset.sum_neg_distrib]

lemma truss_force_magnitudes1_eq (M : Matrix (Fin 6) (Fin 6) ℝ) (f t : Fin 3 → ℝ) :
    truss_force_magnitudes1 M f t = -(M.mulVec (Fin.append f t)) := by
  funext i
  rw [truss_force_magnitudes1, truss_force_magnitudes_col]
  rfl

lemma applied_col (P : Matrix (Fin 6) (Fin 6) ℝ) {N : ℕ}
    (X : Matrix (Fin N) (Fin 6) ℝ) (j : Fin N) :
    (∀ i, (applied P X).1 i j = (-(P.mulVec (X j))) (Fin.castAdd 3 i)) ∧
    (∀ i, (applied P X).2 i j = (-(P.mulVec (X j))) (Fin.natAdd 3 i)) := by
  constructor <;> intro i <;>
    simp [applied, Matrix.mul_apply, Matrix.mulVec, dotProduct]

lemma applied1_eq (P : Matrix (Fin 6) (Fin 6) ℝ) (v : Fin 6 → ℝ) :
    applied1 P v = (fun i => (-(P.mulVec v)) (Fin.castAdd 3 i),
                    fun i => (-(P.mulVec v)) (Fin.natAdd 3 i)) := by
  unfold applied1
  refine Prod.ext ?_ ?_ <;> funext i
  · show (applied P (rowOf v)).1 i 0 = _
    rw [(applied_col P (rowOf v) 0).1 i]
    rfl
  · show (applied P (rowOf v)).2 i 0 = _
    rw [(applied_col P (rowOf v) 0).2 i]
    rfl

/-- Composing `applied` after `truss_force_magnitudes` is the identity as soon
as the two cached matrices multiply to 1. -/
lemma roundtrip_mul_one (A B : Matrix (Fin 6) (Fin 6) ℝ) (hBA : B * A = 1)
    (f t : Fin 3 → ℝ) :
    applied1 B (truss_force_magnitudes1 A f t) = (f, t) := by
  rw [truss_force_magnitudes1_eq, applied1_eq]
  have key : -(B.mulVec (-(A.mulVec (Fin.append f t)))) = Fin.append f t := by
    rw [Matrix.mulVec_neg, Matrix.mulVec_mulVec, hBA, Matrix.one_mulVec, neg_neg]
  refine Prod.ext ?_ ?_ <;> funext i
  · exact (congrFun key (Fin.castAdd 3 i)).trans (Fin.append_left f t i)
  · exact (congrFun key (Fin.natAdd 3 i)).trans (Fin.append_right f t i)

/-- Unpacking a successful `Haptick` construction. -/
lemma hap_mk_ok {a b c d e : ℝ} {m : HapState} (h : Haptick.mk a b c d e = .ok m) :
    m = hapState a b c d e ∧ (plucker a b c d e).det ≠ 0 ∧ a ≠ 0 ∧ c ≠ 0 := by
  unfold Haptick.mk at h
  by_cases h1 : a = 0 ∨ c = 0
  · rw [if_pos h1] at h
    exact absurd h (by simp)
  · rw [if_neg h1] at h
    by_cases h2 : (plucker a b c d e).det = 0
    · rw [if_pos h2] at h
      exact absurd h (by simp)
    · rw [if_neg h2] at h
      exact ⟨(Except.ok.inj h).symm, h2, fun ha => h1 (Or.inl ha),
        fun hc => h1 (Or.inr hc)⟩

/-- The `z`-row of every strut difference vector is the height. -/
lemma truss_diff_two (a b c d e : ℝ) (i : Fin 6) :
    truss_diff a b c d e 2 i = e := by
  show top_joints a b e 2 i - bottom_rolled c d 2 i = e
  simp [top_joints, bottom_rolled, bottom_joints, joint_positions]

lemma colNorm_pos_of_height {a b c d e : ℝ} (he : e ≠ 0) (i : Fin 6) :
    0 < colNorm a b c d e i := by
  rw [colNorm]
  apply Real.sqrt_pos.mpr
  rw [Fin.sum_univ_three]
  rw [truss_diff_two]
  positivity

/-! ## Claims about the wrench-mapping operations -/

/-- C2: for every provider state and every input, `truss_force_magnitudes`
(the spec's `inverse`) is the negated product of the cached inverse matrix
with the stacked `[force; torque]` vector, and `applied` (the spec's
`forward`) is the negated product of the cached forward matrix with the strut
forces, split into the leading 3 components (force) and trailing 3
(torque). -/
theorem claim_C2_linear_maps (Minv P : Matrix (Fin 6) (Fin 6) ℝ)
    (f t : Fin 3 → ℝ) (v : Fin 6 → ℝ) :
    truss_force_magnitudes1 Minv f t = -(Minv.mulVec (Fin.append f t)) ∧
    applied1 P v = (fun i => (-(P.mulVec v)) (Fin.castAdd 3 i),
                    fun i => (-(P.mulVec v)) (Fin.natAdd 3 i)) :=
  ⟨truss_force_magnitudes1_eq Minv f t, applied1_eq P v⟩

/-- C7: for every `N ≥ 1`, processing a batch of `N` wrenches (resp. strut
force vectors) gives, in each output column `j`, exactly the result of the
single-input operation on row `j` alone. -/
theorem claim_C7_batch (Minv P : Matrix (Fin 6) (Fin 6) ℝ) (N : ℕ) (hN : 1 ≤ N)
    (F T : Matrix (Fin N) (Fin 3) ℝ) (X : Matrix (Fin N) (Fin 6) ℝ) (j : Fin N) :
    (∀ i, truss_force_magnitudes Minv F T i j =
      truss_force_magnitudes1 Minv (F j) (T j) i) ∧
    (∀ i, (applied P X).1 i j = (applied1 P (X j)).1 i) ∧
    (∀ i, (applied P X).2 i j = (applied1 P (X j)).2 i) := by
  refine ⟨fun i => ?_, fun i => ?_, fun i => ?_⟩
  · rw [truss_force_magnitudes_col, truss_force_magnitudes1_eq]
    rfl
  · rw [(applied_col P X j).1 i, applied1_eq]
  · rw [(applied_col P X j).2 i, applied1_eq]

/-- Witness for C7 at the concrete batch size `N = 1`. -/
theorem claim_C7_batch_witness :
    1 ≤ 1 ∧
    truss_force_magnitudes (1 : Matrix (Fin 6) (Fin 6) ℝ)
        (0 : Matrix (Fin 1) (Fin 3) ℝ) (0 : Matrix (Fin 1) (Fin 3) ℝ) 0 0 =
      truss_force_magnitudes1 1 ((0 : Matrix (Fin 1) (Fin 3) ℝ) 0)
        ((0 : Matrix (Fin 1) (Fin 3) ℝ) 0) 0 :=
  ⟨le_refl 1, (claim_C7_batch 1 1 1 (le_refl 1) 0 0 0 0).1 0⟩

/-- C9 counterexample: calling `applied` with a 5-element strut force vector
does not raise the spec's `ValidationError`; numpy's matmul raises
`ValueError`. -/
theorem claim_C9_counterexample :
    appliedChecked calState.plucker 5 (fun _ => 0) ≠
      Except.error PyErr.validationError := by
  unfold appliedChecked
  rw [dif_neg (by decide : ¬(5 = 6))]
  simp

/-- C9 amended: calling `applied` with a strut force vector of any length
other than 6 raises numpy's `ValueError` (shape mismatch) at call time,
and no partial result is returned. -/
theorem claim_C9_amended (P : Matrix (Fin 6) (Fin 6) ℝ) (k : ℕ) (hk : k ≠ 6)
    (v : Fin k → ℝ) :
    appliedChecked P k v = .error .valueError := by
  unfold appliedChecked
  rw [dif_neg hk]

/-- Witness for C9 at length 5. -/
theorem claim_C9_amended_witness :
    (5 ≠ 6) ∧ appliedChecked calState.plucker 5 (fun _ => 0) = .error .valueError :=
  ⟨by decide, claim_C9_amended calState.plucker 5 (by decide) (fun _ => 0)⟩

/-! ## Claims about construction and validation -/

/-- C4 counterexample: constructing with `height = -1 < 0` does not raise
`ValidationError`. -/
theorem claim_C4_counterexample :
    Haptick.mk 1 0 1 0 (-1) ≠ .error .validationError := by
  unfold Haptick.mk
  split
  · simp
  · split <;> simp

/-- C4 amended: `Haptick.__init__` performs no input validation at all — no
argument tuple ever raises `ValidationError` (the only construction failures
are `ZeroDivisionError` for a zero radius and `LinAlgError` for a singular
matrix; see C5). -/
theorem claim_C4_amended (a b c d e : ℝ) :
    Haptick.mk a b c d e ≠ .error .validationError := by
  unfold Haptick.mk
  split
  · simp
  · split <;> simp

/-- C5 counterexample: constructing with `top_radius = 0` does not raise
`NonInvertibleGeometryError`; the Python division by the radius raises
`ZeroDivisionError` before any matrix is assembled. -/
theorem claim_C5_counterexample :
    Haptick.mk 0 1 1 1 1 ≠ .error .nonInvertibleGeometryError := by
  unfold Haptick.mk
  rw [if_pos (Or.inl rfl)]
  simp

/-- C5 amended: a zero radius raises `ZeroDivisionError` during the angle
computation, before the matrix exists; with nonzero radii, a singular
assembled matrix raises numpy's `LinAlgError` (the code's analogue of the
spec's `NonInvertibleGeometryError`), once, at construction time. -/
theorem claim_C5_amended (a b c d e : ℝ) :
    (a = 0 ∨ c = 0 → Haptick.mk a b c d e = .error .zeroDivisionError) ∧
    (a ≠ 0 → c ≠ 0 → (plucker a b c d e).det = 0 →
      Haptick.mk a b c d e = .error .linAlgError) := by
  constructor
  · intro h
    unfold Haptick.mk
    rw [if_pos h]
  · intro ha hc hdet
    unfold Haptick.mk
    rw [if_neg (by tauto : ¬(a = 0 ∨ c = 0)), if_pos hdet]

/-! ## The calibration table is invertible -/

set_option maxHeartbeats 1000000 in
/-- The externally computed `Rc` is an exact right inverse of the hardcoded
calibration table. -/
lemma Qc_mul_Rc : Qc * Rc = 1 := by
  ext i j
  fin_cases i <;> fin_cases j <;>
    norm_num [Matrix.mul_apply, Fin.sum_univ_six, Qc, Rc, Matrix.one_apply, Fin.ext_iff]

lemma isUnit_det_Qc : IsUnit Qc.det :=
  Matrix.isUnit_det_of_right_inverse Qc_mul_Rc

lemma Qc_inv_eq_Rc : Qc⁻¹ = Rc :=
  Matrix.inv_eq_right_inv Qc_mul_Rc

/-- Constructor `Calibrated.__init__` always succeeds, whatever its argument. -/
lemma init_ok {α : Sort*} (x : α) : Calibrated.init x = .ok calState := by
  unfold Calibrated.init
  rw [if_neg isUnit_det_Qc.ne_zero]

/-! ## The reference geometry `(1, 0, 1, 0, 1)` constructs successfully -/

lemma plucker_factor (a b c d e : ℝ) :
    plucker a b c d e =
      pluckerUnnorm a b c d e * Matrix.diagonal (fun i => (colNorm a b c d e i)⁻¹) := by
  ext r s
  rw [Matrix.mul_diagonal]
  fin_cases r <;>
    simp [plucker, pluckerUnnorm, moments, unit_forces, div_eq_mul_inv] <;> ring

lemma cos_two_pi_div_three : Real.cos (2 * π / 3) = -(1/2) := by
  rw [show (2*π/3 : ℝ) = π - π/3 by ring, Real.cos_pi_sub, Real.cos_pi_div_three]

lemma sin_two_pi_div_three : Real.sin (2 * π / 3) = Real.sqrt 3 / 2 := by
  rw [show (2*π/3 : ℝ) = π - π/3 by ring, Real.sin_pi_sub, Real.sin_pi_div_three]

lemma cos_four_pi_div_three : Real.cos (2 * (2 * π / 3)) = -(1/2) := by
  rw [show (2*(2*π/3) : ℝ) = π/3 + π by ring, Real.cos_add_pi, Real.cos_pi_div_three]

lemma sin_four_pi_div_three : Real.sin (2 * (2 * π / 3)) = -(Real.sqrt 3 / 2) := by
  rw [show (2*(2*π/3) : ℝ) = π/3 + π by ring, Real.sin_add_pi, Real.sin_pi_div_three]

lemma top_joints_ref (i : Fin 3) (j : Fin 6) :
    top_joints 1 0 1 i j =
      Matrix.of ![![(1:ℝ), 1, -(1/2), -(1/2), -(1/2), -(1/2)],
         ![0, 0, Real.sqrt 3/2, Real.sqrt 3/2, -(Real.sqrt 3/2), -(Real.sqrt 3/2)],
         ![1, 1, 1, 1, 1, 1]] i j := by
  have c2 := cos_two_pi_div_three
  have s2 := sin_two_pi_div_three
  have c4 := cos_four_pi_div_three
  have s4 := sin_four_pi_div_three
  fin_cases i <;> fin_cases j <;>
    norm_num [top_joints, joint_positions, top_angles, TRIANGLE, c2, s2, c4, s4]

lemma bottom_joints_ref (i : Fin 3) (j : Fin 6) :
    bottom_joints 1 0 i j =
      Matrix.of ![![(1:ℝ)/2, 1/2, 1/2, 1/2, -1, -1],
         ![-(Real.sqrt 3/2), -(Real.sqrt 3/2), Real.sqrt 3/2, Real.sqrt 3/2, 0, 0],
         ![0, 0, 0, 0, 0, 0]] i j := by
  have a0 : (TRIANGLE 0 - deg2rad 60 : ℝ) = -(π/3) := by
    simp only [TRIANGLE, deg2rad]
    ring
  have a1 : (TRIANGLE 1 - deg2rad 60 : ℝ) = π/3 := by
    simp only [TRIANGLE, deg2rad]
    ring
  have a2 : (TRIANGLE 2 - deg2rad 60 : ℝ) = π := by
    simp only [TRIANGLE, deg2rad]
    ring
  have hc0 : Real.cos (TRIANGLE 0 - deg2rad 60) = 1/2 := by
    rw [a0, Real.cos_neg, Real.cos_pi_div_three]
  have hs0 : Real.sin (TRIANGLE 0 - deg2rad 60) = -(Real.sqrt 3/2) := by
    rw [a0, Real.sin_neg, Real.sin_pi_div_three]
  have hc1 : Real.cos (TRIANGLE 1 - deg2rad 60) = 1/2 := by
    rw [a1, Real.cos_pi_div_three]
  have hs1 : Real.sin (TRIANGLE 1 - deg2rad 60) = Real.sqrt 3/2 := by
    rw [a1, Real.sin_pi_div_three]
  have hc2 : Real.cos (TRIANGLE 2 - deg2rad 60) = -1 := by
    rw [a2, Real.cos_pi]
  have hs2 : Real.sin (TRIANGLE 2 - deg2rad 60) = 0 := by
    rw [a2, Real.sin_pi]
  fin_cases i <;> fin_cases j <;>
    norm_num [bottom_joints, joint_positions, bottom_angles, hc0, hs0, hc1, hs1, hc2, hs2]

set_option maxHeartbeats 1000000 in
lemma pluckerUnnorm_ref : pluckerUnnorm 1 0 1 0 1 = Mex := by
  have ht := top_joints_ref
  have hb : ∀ (i : Fin 3) (j : Fin 6), bottom_rolled 1 0 i j =
      Matrix.of ![![(1:ℝ)/2, 1/2, 1/2, -1, -1, 1/2],
         ![-(Real.sqrt 3/2), Real.sqrt 3/2, Real.sqrt 3/2, 0, 0, -(Real.sqrt 3/2)],
         ![0, 0, 0, 0, 0, 0]] i j := by
    intro i j
    show bottom_joints 1 0 i (j + 1) = _
    fin_cases i <;> fin_cases j <;> rw [bottom_joints_ref] <;> rfl
  ext r c
  have hd : ∀ (i : Fin 3) (j : Fin 6), truss_diff 1 0 1 0 1 i j =
      top_joints 1 0 1 i j - bottom_rolled 1 0 i j := fun i j => rfl
  fin_cases r <;> fin_cases c <;>
    norm_num [pluckerUnnorm, Mex, hd, ht, hb] <;> ring

set_option maxHeartbeats 1000000 in
/-- The externally computed `Rex` is an exact right inverse of `Mex`. -/
lemma Mex_mul_Rex : Mex * Rex = 1 := by
  have hs : Real.sqrt 3 ^ 2 = 3 := Real.sq_sqrt (by norm_num)
  ext i j
  rw [Matrix.mul_apply]
  fin_cases i <;> fin_cases j <;>
    norm_num [Fin.sum_univ_six, Mex, Rex, Matrix.one_apply, Fin.ext_iff] <;>
    first
      | linear_combination ((1:ℝ)/3) * hs
      | linear_combination ((0:ℝ)) * hs

lemma isUnit_det_pluckerUnnorm_ref : IsUnit (pluckerUnnorm 1 0 1 0 1).det :=
  Matrix.isUnit_det_of_right_inverse (pluckerUnnorm_ref ▸ Mex_mul_Rex)

lemma det_plucker_ref : (plucker 1 0 1 0 1).det ≠ 0 := by
  rw [plucker_factor, Matrix.det_mul, Matrix.det_diagonal]
  exact mul_ne_zero isUnit_det_pluckerUnnorm_ref.ne_zero
    (Finset.prod_ne_zero_iff.mpr fun i _ =>
      inv_ne_zero (colNorm_pos_of_height one_ne_zero i).ne')

/-- The reference geometry constructs successfully. -/
lemma mk_ref_ok : Haptick.mk 1 0 1 0 1 = .ok (hapState 1 0 1 0 1) := by
  unfold Haptick.mk
  rw [if_neg (by norm_num : ¬((1:ℝ) = 0 ∨ (1:ℝ) = 0)), if_neg det_plucker_ref]

/-! ## Round trip, calibrated provider and unit directions -/

/-- C1: for every wrench, `applied` after `truss_force_magnitudes` (the
spec's `forward ∘ inverse`) is the identity, for every successfully
constructed `Haptick` and for the `Calibrated` provider.  (`Calibrated` has
no `truss_force_magnitudes` method in the source; following the spec's
WrenchMapper contract it is the same formula applied to its cached inverse
matrix.) -/
theorem claim_C1_round_trip :
    (∀ (a b c d e : ℝ) (m : HapState), Haptick.mk a b c d e = .ok m →
      ∀ f t : Fin 3 → ℝ,
        applied1 m.plucker (truss_force_magnitudes1 m.inverse_plucker f t) = (f, t)) ∧
    (∀ (x : ℕ) (m : CalState), Calibrated.init x = .ok m →
      ∀ f t : Fin 3 → ℝ,
        applied1 m.plucker (Calibrated.truss_force_magnitudes1 m f t) = (f, t)) := by
  constructor
  · intro a b c d e m hm f t
    obtain ⟨hme, hdet, -, -⟩ := hap_mk_ok hm
    subst hme
    exact roundtrip_mul_one ((plucker a b c d e)⁻¹) (plucker a b c d e)
      (Matrix.mul_nonsing_inv _ (isUnit_iff_ne_zero.mpr hdet)) f t
  · intro x m hm f t
    rw [init_ok] at hm
    obtain rfl := Except.ok.inj hm
    exact roundtrip_mul_one Qc (Qc⁻¹) (Matrix.nonsing_inv_mul _ isUnit_det_Qc) f t

/-- Witness for C1 at the reference geometry and the calibrated provider. -/
theorem claim_C1_round_trip_witness :
    applied1 (hapState 1 0 1 0 1).plucker
        (truss_force_magnitudes1 (hapState 1 0 1 0 1).inverse_plucker
          ![1, 2, 3] ![4, 5, 6]) = (![1, 2, 3], ![4, 5, 6]) ∧
    applied1 calState.plucker
        (Calibrated.truss_force_magnitudes1 calState
          ![1, 2, 3] ![4, 5, 6]) = (![1, 2, 3], ![4, 5, 6]) :=
  ⟨claim_C1_round_trip.1 1 0 1 0 1 _ mk_ref_ok ![1, 2, 3] ![4, 5, 6],
   claim_C1_round_trip.2 0 _ (init_ok 0) ![1, 2, 3] ![4, 5, 6]⟩

/-- C3 counterexample: supplying the identity matrix as "calibration table"
to the `Calibrated` constructor still yields the built-in table's inverse as
forward matrix — the constructor's behaviour is not a function of the
supplied matrix, no shape validation happens. -/
theorem claim_C3_counterexample :
    Calibrated.init (1 : Matrix (Fin 6) (Fin 6) ℝ) = .ok calState ∧
    calState.plucker ≠ (1 : Matrix (Fin 6) (Fin 6) ℝ)⁻¹ := by
  refine ⟨init_ok _, ?_⟩
  rw [inv_one]
  show Qc⁻¹ ≠ 1
  rw [Qc_inv_eq_Rc]
  intro h
  have h00 := congrFun (congrFun h 0) 0
  norm_num [Rc, Matrix.one_apply] at h00

/-- C3 amended: the constructor ignores whatever argument it is given and
never fails; it always caches the fixed built-in table `Qc` as the inverse
mapping and that table's matrix inverse (the exact matrix `Rc`) as the
forward mapping. -/
theorem claim_C3_amended {α : Sort*} (x : α) :
    Calibrated.init x = .ok calState ∧ calState.inverse_plucker = Qc ∧
      calState.plucker = Rc :=
  ⟨init_ok x, rfl, Qc_inv_eq_Rc⟩

/-- C10: the `Calibrated` constructor ignores every argument it is given —
any two constructions agree exactly, cache the same two matrices, and their
`applied` operation returns identical outputs on identical inputs. -/
theorem claim_C10_ignores_args {α β : Sort*} (x : α) (y : β) :
    Calibrated.init x = Calibrated.init y ∧
    (∀ s s' : CalState, Calibrated.init x = .ok s → Calibrated.init y = .ok s' →
      s.inverse_plucker = s'.inverse_plucker ∧ s.plucker = s'.plucker ∧
      ∀ X : Matrix (Fin 1) (Fin 6) ℝ, applied s.plucker X = applied s'.plucker X) := by
  refine ⟨by rw [init_ok, init_ok], ?_⟩
  intro s s' hs hs'
  rw [init_ok] at hs hs'
  obtain rfl := Except.ok.inj hs
  obtain rfl := Except.ok.inj hs'
  exact ⟨rfl, rfl, fun X => rfl⟩

/-- Witness for C10 with two different concrete argument types. -/
theorem claim_C10_ignores_args_witness :
    Calibrated.init (0 : ℕ) = Calibrated.init true ∧
    calState.inverse_plucker = calState.inverse_plucker ∧
    applied calState.plucker (0 : Matrix (Fin 1) (Fin 6) ℝ) =
      applied calState.plucker 0 :=
  ⟨(claim_C10_ignores_args (0 : ℕ) true).1,
   ((claim_C10_ignores_args (0 : ℕ) true).2 calState calState
      (init_ok 0) (init_ok true)).1,
   (((claim_C10_ignores_args (0 : ℕ) true).2 calState calState
      (init_ok 0) (init_ok true)).2.2) 0⟩

/-! ## Degenerate geometry and unit directions -/

/-- At `height = 0` all twelve joints are coplanar: the third row of the
Plücker matrix vanishes and the matrix is singular. -/
lemma det_plucker_flat : (plucker 1 0 1 0 0).det = 0 := by
  apply Matrix.det_eq_zero_of_row_eq_zero 2
  intro j
  show unit_forces 1 0 1 0 0 2 j = 0
  show truss_diff 1 0 1 0 0 2 j / colNorm 1 0 1 0 0 j = 0
  rw [truss_diff_two, zero_div]

/-- Witness for C5: a zero radius and a concrete singular geometry. -/
theorem claim_C5_amended_witness :
    Haptick.mk 0 1 1 1 1 = .error .zeroDivisionError ∧
    Haptick.mk 1 0 1 0 0 = .error .linAlgError :=
  ⟨(claim_C5_amended 0 1 1 1 1).1 (Or.inl rfl),
   (claim_C5_amended 1 0 1 0 0).2 one_ne_zero one_ne_zero det_plucker_flat⟩

/-- The code's column norm is the Euclidean norm of the strut difference
vector. -/
lemma euclid_norm_diff (a b c d e : ℝ) (i : Fin 6) :
    ‖(WithLp.equiv 2 (Fin 3 → ℝ)).symm (fun j => truss_diff a b c d e j i)‖ =
      colNorm a b c d e i := by
  rw [EuclideanSpace.norm_eq, colNorm]
  congr 1
  refine Finset.sum_congr rfl fun j _ => ?_
  rw [WithLp.equiv_symm_pi_apply, Real.norm_eq_abs, sq_abs]

/-- C6 counterexample: at the reference geometry, the cached unit direction
of strut 0 differs from the specification's "bottom minus top" vector — its
`z`-component is positive, while the spec's description makes it
negative. -/
theorem claim_C6_counterexample :
    unit_forces 1 0 1 0 1 2 0 ≠ spec_unit_forces 1 0 1 0 1 2 0 := by
  have hn : 0 < colNorm 1 0 1 0 1 0 := colNorm_pos_of_height one_ne_zero 0
  have hcode : unit_forces 1 0 1 0 1 2 0 = 1 / colNorm 1 0 1 0 1 0 := by
    show truss_diff 1 0 1 0 1 2 0 / colNorm 1 0 1 0 1 0 = _
    rw [truss_diff_two]
  have hswap : ∀ j' : Fin 3,
      (bottom_rolled 1 0 j' 0 - top_joints 1 0 1 j' 0) ^ 2 =
        (truss_diff 1 0 1 0 1 j' 0) ^ 2 := by
    intro j'
    have hneg : bottom_rolled 1 0 j' 0 - top_joints 1 0 1 j' 0 =
        -(truss_diff 1 0 1 0 1 j' 0) := by
      show _ = -(top_joints 1 0 1 j' 0 - bottom_rolled 1 0 j' 0)
      ring
    rw [hneg, neg_sq]
  have hden : Real.sqrt (∑ i' : Fin 3,
      (bottom_rolled 1 0 i' 0 - top_joints 1 0 1 i' 0) ^ 2) =
      colNorm 1 0 1 0 1 0 := by
    rw [colNorm]
    congr 1
    exact Finset.sum_congr rfl fun j' _ => hswap j'
  have hnum : bottom_rolled 1 0 2 0 - top_joints 1 0 1 2 0 = -1 := by
    have hneg : bottom_rolled 1 0 2 0 - top_joints 1 0 1 2 0 =
        -(truss_diff 1 0 1 0 1 2 0) := by
      show _ = -(top_joints 1 0 1 2 0 - bottom_rolled 1 0 2 0)
      ring
    rw [hneg, truss_diff_two]
  have hspec : spec_unit_forces 1 0 1 0 1 2 0 = -(1 / colNorm 1 0 1 0 1 0) := by
    show (bottom_rolled 1 0 2 0 - top_joints 1 0 1 2 0) /
        Real.sqrt (∑ i' : Fin 3,
          (bottom_rolled 1 0 i' 0 - top_joints 1 0 1 i' 0) ^ 2) = _
    rw [hnum, hden, neg_div]
  rw [hcode, hspec]
  intro hEq
  have h1 : 0 < 1 / colNorm 1 0 1 0 1 0 := by positivity
  have h2 : 0 < 1 / colNorm 1 0 1 0 1 0 := h1
  rw [hEq] at h1
  linarith

/-- C6 amended: the cached unit direction is the normalized vector from the
strut's bottom joint to its top joint — top-joint position minus bottom-joint
position, divided by the Euclidean norm of that difference (the opposite
sign of the claim's wording). -/
theorem claim_C6_amended (a b c d e : ℝ) (i : Fin 6) (j : Fin 3) :
    unit_forces a b c d e j i =
      (top_joints a b e j i - bottom_rolled c d j i) /
        ‖(WithLp.equiv 2 (Fin 3 → ℝ)).symm (fun j' => truss_diff a b c d e j' i)‖ := by
  rw [euclid_norm_diff]
  rfl

/-! ## Strut force components -/

lemma plucker_col_zero {a b c d e : ℝ} {i : Fin 6}
    (h : ∀ j : Fin 3, truss_diff a b c d e j i = 0) (r : Fin 6) :
    plucker a b c d e r i = 0 := by
  have hu : ∀ j : Fin 3, unit_forces a b c d e j i = 0 := by
    intro j
    show truss_diff a b c d e j i / colNorm a b c d e i = 0
    rw [h j, zero_div]
  fin_cases r <;> simp [plucker, moments, hu]

/-- A successfully constructed geometry has no zero-length strut. -/
lemma col_nonzero {a b c d e : ℝ} (hdet : (plucker a b c d e).det ≠ 0) (i : Fin 6) :
    ∃ j, truss_diff a b c d e j i ≠ 0 := by
  by_contra h
  push_neg at h
  exact hdet (Matrix.det_eq_zero_of_column_eq_zero i (plucker_col_zero h))

lemma colNorm_pos_of_col {a b c d e : ℝ} {i : Fin 6}
    (h : ∃ j, truss_diff a b c d e j i ≠ 0) : 0 < colNorm a b c d e i := by
  obtain ⟨j0, hj⟩ := h
  rw [colNorm]
  apply Real.sqrt_pos.mpr
  have hle : (truss_diff a b c d e j0 i) ^ 2 ≤
      ∑ j : Fin 3, (truss_diff a b c d e j i) ^ 2 :=
    Finset.single_le_sum (fun j _ => sq_nonneg (truss_diff a b c d e j i))
      (Finset.mem_univ j0)
  have h0 : 0 < (truss_diff a b c d e j0 i) ^ 2 :=
    lt_of_le_of_ne (sq_nonneg _) (Ne.symm (pow_ne_zero 2 hj))
  linarith

/-- C8: for every constructed `Haptick`, every wrench and every strut, the
Euclidean norm of the strut's 3D force component equals the absolute value
of that strut's scalar from `truss_force_magnitudes`, and the component is
that scalar times the strut's cached unit direction. -/
theorem claim_C8_components (a b c d e : ℝ) (m : HapState)
    (hm : Haptick.mk a b c d e = .ok m) (f t : Fin 3 → ℝ) (i : Fin 6) :
    ‖(WithLp.equiv 2 (Fin 3 → ℝ)).symm (fun j => truss_force_components1 m f t j i)‖ =
      |truss_force_magnitudes1 m.inverse_plucker f t i| ∧
    (fun j => truss_force_components1 m f t j i) =
      (fun j => truss_force_magnitudes1 m.inverse_plucker f t i *
        m.unit_forces j i) := by
  obtain ⟨hme, hdet, -, -⟩ := hap_mk_ok hm
  subst hme
  constructor
  · set mg := truss_force_magnitudes1 (hapState a b c d e).inverse_plucker f t i
      with hmg
    have hn : 0 < colNorm a b c d e i := colNorm_pos_of_col (col_nonzero hdet i)
    have hsq : (colNorm a b c d e i) ^ 2 =
        ∑ j : Fin 3, (truss_diff a b c d e j i) ^ 2 := by
      rw [colNorm]
      exact Real.sq_sqrt (Finset.sum_nonneg fun j _ => sq_nonneg _)
    rw [EuclideanSpace.norm_eq]
    have hterm : ∀ j : Fin 3,
        ‖(WithLp.equiv 2 (Fin 3 → ℝ)).symm
            (fun j => truss_force_components1 (hapState a b c d e) f t j i) j‖ ^ 2 =
          (truss_diff a b c d e j i) ^ 2 / (colNorm a b c d e i) ^ 2 * mg ^ 2 := by
      intro j
      rw [WithLp.equiv_symm_pi_apply, Real.norm_eq_abs, sq_abs]
      show (unit_forces a b c d e j i * mg) ^ 2 = _
      show (truss_diff a b c d e j i / colNorm a b c d e i * mg) ^ 2 = _
      rw [mul_pow, div_pow]
    rw [Finset.sum_congr rfl fun j _ => hterm j, ← Finset.sum_mul,
      ← Finset.sum_div, ← hsq, div_self (pow_pos hn 2).ne', one_mul,
      Real.sqrt_sq_eq_abs]
  · funext j
    show unit_forces a b c d e j i *
        truss_force_magnitudes1 (hapState a b c d e).inverse_plucker f t i = _
    exact mul_comm _ _

/-- Witness for C8 at the reference geometry. -/
theorem claim_C8_components_witness :
    ‖(WithLp.equiv 2 (Fin 3 → ℝ)).symm
        (fun j => truss_force_components1 (hapState 1 0 1 0 1) ![1, 0, 0] ![0, 0, 0] j 0)‖ =
      |truss_force_magnitudes1 (hapState 1 0 1 0 1).inverse_plucker
        ![1, 0, 0] ![0, 0, 0] 0| ∧
    (fun j => truss_force_components1 (hapState 1 0 1 0 1) ![1, 0, 0] ![0, 0, 0] j 0) =
      (fun j => truss_force_magnitudes1 (hapState 1 0 1 0 1).inverse_plucker
        ![1, 0, 0] ![0, 0, 0] 0 * (hapState 1 0 1 0 1).unit_forces j 0) :=
  claim_C8_components 1 0 1 0 1 _ mk_ref_ok ![1, 0, 0] ![0, 0, 0] 0

end FreeBody
